import Mathlib

/-!
Shallow embedding of the health-check aggregation engine of the ekspeek
repository (package `pkg/k8s`, health path, and the report synthesis in the
`cluster-health` command), together with theorems settling the frozen claims
about it.

The Go source is translated as follows: Kubernetes API objects become plain
structures carrying exactly the fields the health path reads; the Kubernetes
accessor calls become an environment record of `Except`-valued results; Go's
`map[string][]string` with `append` becomes an association list with an
append-at-key operation; `float64` percentages become `ℚ` (at the inputs the
claims test, the Go float computation is exact, so the rational model agrees
with it).
-/

namespace Ekspeek

/-- An error returned by a Kubernetes accessor call.  `isNotFound` models
`errors.IsNotFound(err)`, which the logging check tolerates. -/
structure K8sError where
  msg : String
  isNotFound : Bool
deriving DecidableEq, Repr

/-- One entry of `node.Status.Conditions` (type, status, message). -/
structure NodeCondition where
  condType : String
  condStatus : String
  message : String
deriving DecidableEq, Repr

/-- The fields of a `corev1.Node` the health path reads: name, kubelet
version, conditions, and capacity (CPU in milli-cores, memory in bytes). -/
structure Node where
  name : String
  kubeletVersion : String
  conditions : List NodeCondition
  capacityCPUMilli : Int
  capacityMemoryBytes : Int
deriving DecidableEq, Repr

/-- One entry of `pod.Status.Conditions`. -/
structure PodCondition where
  condType : String
  condStatus : String
  message : String
deriving DecidableEq, Repr

/-- One projected-volume source; `hasServiceAccountToken` models
`source.ServiceAccountToken != nil`. -/
structure VolumeProjectionSource where
  hasServiceAccountToken : Bool
deriving DecidableEq, Repr

/-- One entry of `pod.Spec.Volumes`; `projected` models the
`volume.Projected` pointer (`none` = nil). -/
structure Volume where
  projected : Option (List VolumeProjectionSource)
deriving DecidableEq, Repr

/-- The fields of a `corev1.Container` the health path reads: resource
requests and environment variables. -/
structure Container where
  requestsCPUMilli : Int
  requestsMemoryBytes : Int
  env : List (String × String)
deriving DecidableEq, Repr

/-- The fields of a `corev1.Pod` the health path reads. -/
structure Pod where
  name : String
  ns : String
  phase : String
  message : String
  nodeName : String
  conditions : List PodCondition
  volumes : List Volume
  containers : List Container
deriving DecidableEq, Repr

/-- The fields of an `appsv1.Deployment` the health path reads: namespace,
name and the set of annotation keys present on the object. -/
structure Deployment where
  name : String
  ns : String
  annotKeys : List String
deriving DecidableEq, Repr

/-- The fields of a `corev1.Service` the health path reads. `svcType` is
`Spec.Type`; `lbIngressCount` is `len(Status.LoadBalancer.Ingress)`. -/
structure Service where
  name : String
  ns : String
  svcType : String
  lbIngressCount : Nat
deriving DecidableEq, Repr

/-- The fields of a `networkingv1.Ingress` the health path reads. -/
structure Ingress where
  name : String
  ns : String
  lbIngressCount : Nat
deriving DecidableEq, Repr

/-- The fields of a `corev1.ServiceAccount` the health path reads: name,
namespace and the annotation map (as a key/value list). -/
structure ServiceAccount where
  name : String
  ns : String
  annots : List (String × String)
deriving DecidableEq, Repr

/-! ## The snapshot data model (`ClusterHealthStatus` and sub-statuses) -/

/-- The snapshot type `PodStatus` as the health checks populate it: name, namespace, phase
rendered as string, and the status message. -/
structure PodStatus where
  name : String
  ns : String
  status : String
  message : String
deriving DecidableEq, Repr

structure LoggingStatus where
  fluentBitStatus : List PodStatus
  cloudWatchStatus : List PodStatus
  metricsServerStatus : List PodStatus
deriving DecidableEq, Repr

structure NetworkingStatus where
  cniStatus : List PodStatus
  coreDNSStatus : List PodStatus
  externalAccess : Bool
  dnsResolution : Bool
deriving DecidableEq, Repr

structure IngressStatus where
  name : String
  ns : String
  status : String
  problems : List String
deriving DecidableEq, Repr

structure LoadBalancerStatus where
  pendingServices : List String
  ingressStatus : List IngressStatus
deriving DecidableEq, Repr

structure PodSchedulingIssue where
  pod : String
  ns : String
  reason : String
deriving DecidableEq, Repr

structure ResourceStats where
  capacity : Int
  allocated : Int
  utilization : ℚ
deriving DecidableEq, Repr

structure ResourceIssue where
  nodeName : String
  cpu : ResourceStats
  memory : ResourceStats
deriving DecidableEq, Repr

structure SchedulingStatus where
  pendingPods : List PodSchedulingIssue
  resourceIssues : List ResourceIssue
deriving DecidableEq, Repr

structure AuthStatus where
  irsaIssues : List String
  rbacIssues : List String
  iamAuthIssues : List String
deriving DecidableEq, Repr

structure NodeStatus where
  notReady : List String
  asgIssues : List String
  bootstrapIssues : List String
deriving DecidableEq, Repr

/-- The root snapshot, `ClusterHealthStatus`.  `nodeVersions` models the Go
`map[string][]string` as an association list with unique keys. -/
structure ClusterHealthStatus where
  nodeVersions : List (String × List String)
  deprecatedAPIs : List String
  loggingStatus : LoggingStatus
  networkingStatus : NetworkingStatus
  loadBalancerStatus : LoadBalancerStatus
  schedulingStatus : SchedulingStatus
  authStatus : AuthStatus
  nodeStatus : NodeStatus
deriving DecidableEq, Repr

/-- The snapshot in which every category is empty (fresh value before the
checks run; useful for building concrete test snapshots). -/
def emptySnapshot : ClusterHealthStatus where
  nodeVersions := []
  deprecatedAPIs := []
  loggingStatus := { fluentBitStatus := [], cloudWatchStatus := [], metricsServerStatus := [] }
  networkingStatus := { cniStatus := [], coreDNSStatus := [], externalAccess := false, dnsResolution := false }
  loadBalancerStatus := { pendingServices := [], ingressStatus := [] }
  schedulingStatus := { pendingPods := [], resourceIssues := [] }
  authStatus := { irsaIssues := [], rbacIssues := [], iamAuthIssues := [] }
  nodeStatus := { notReady := [], asgIssues := [], bootstrapIssues := [] }

/-! ## Version-skew check (`checkVersionMismatch`) -/

/-- Go's `m[k] = append(m[k], v)` on a `map[string][]string`, modelled on an
association list with unique keys: append `v` to the entry of `k`, creating
the entry when absent. -/
def mapAppend (m : List (String × List String)) (k v : String) :
    List (String × List String) :=
  match m with
  | [] => [(k, [v])]
  | (k1, vs) :: rest =>
    if k1 = k then (k1, vs ++ [v]) :: rest
    else (k1, vs) :: mapAppend rest k v

/-- Lookup of a key in the association-list map. -/
def mapFind? (m : List (String × List String)) (k : String) : Option (List String) :=
  match m with
  | [] => none
  | (k1, vs) :: rest => if k1 = k then some vs else mapFind? rest k

/-- One loop iteration of `checkVersionMismatch`: record the node's name
under its kubelet-version key. -/
def addNodeVersion (m : List (String × List String)) (n : Node) :
    List (String × List String) :=
  mapAppend m n.kubeletVersion n.name

/-- The function `checkVersionMismatch` (part_004 lines 206-218): group node names by
their kubelet-version string into `NodeVersions`. -/
def checkVersionMismatch (nodes : List Node) : List (String × List String) :=
  nodes.foldl addNodeVersion []

/-! ## Deprecated-API check (`checkDeprecatedAPIs`) -/

def deprecatedMarkerKey : String := "deprecated.kubernetes.io"

/-- The function `checkDeprecatedAPIs`: one finding per deployment whose annotations
carry the deprecation marker key. -/
def checkDeprecatedAPIs (deployments : List Deployment) : List String :=
  (deployments.filter (fun d => deprecatedMarkerKey ∈ d.annotKeys)).map
    (fun d => "Deployment " ++ d.ns ++ "/" ++ d.name ++ " uses deprecated APIs")

/-! ## Logging, networking, load-balancer checks -/

/-- How the health checks build a `PodStatus` from a pod: `Status` is the
phase rendered as a string, `Message` is the status message. -/
def toPodStatus (p : Pod) : PodStatus :=
  { name := p.name, ns := p.ns, status := p.phase, message := p.message }

/-- The function `checkLoggingStatus` on the three already-listed pod sets. -/
def checkLoggingStatus (fluentBitPods cloudWatchPods metricsServerPods : List Pod) :
    LoggingStatus where
  fluentBitStatus := fluentBitPods.map toPodStatus
  cloudWatchStatus := cloudWatchPods.map toPodStatus
  metricsServerStatus := metricsServerPods.map toPodStatus

/-- The function `checkNetworkingStatus` (part_004 lines 293-329): lists CNI and CoreDNS
pods.  The two booleans of `NetworkingStatus` are never assigned in the Go
function, so they keep the zero value `false`. -/
def checkNetworkingStatus (cniPods coreDNSPods : List Pod) : NetworkingStatus where
  cniStatus := cniPods.map toPodStatus
  coreDNSStatus := coreDNSPods.map toPodStatus
  externalAccess := false
  dnsResolution := false

/-- The function `checkLoadBalancerStatus`: a LoadBalancer-type service with zero
provisioned ingress points is pending; an ingress is Ready exactly when it
has at least one load-balancer ingress point. -/
def checkLoadBalancerStatus (services : List Service) (ingresses : List Ingress) :
    LoadBalancerStatus where
  pendingServices :=
    (services.filter (fun s => s.svcType == "LoadBalancer" && s.lbIngressCount == 0)).map
      (fun s => s.ns ++ "/" ++ s.name)
  ingressStatus :=
    ingresses.map (fun i =>
      { name := i.name, ns := i.ns,
        status := if i.lbIngressCount > 0 then "Ready" else "Pending",
        problems := [] })

/-! ## Scheduling check (`checkSchedulingStatus`) -/

/-- The inner loop of `checkSchedulingStatus`: the message of the first
`PodScheduled` condition with status `False` (the loop breaks there), or the
zero value `""` when no condition matches. -/
def schedReason (p : Pod) : String :=
  match p.conditions.find? (fun c => c.condType == "PodScheduled" && c.condStatus == "False") with
  | some c => c.message
  | none => ""

/-- The outer loop of `checkSchedulingStatus`: append one issue per listed
pod. -/
def schedLoop (pods : List Pod) (acc : List PodSchedulingIssue) :
    List PodSchedulingIssue :=
  match pods with
  | [] => acc
  | p :: rest =>
    schedLoop rest (acc ++ [{ pod := p.name, ns := p.ns, reason := schedReason p }])

/-- The function `checkSchedulingStatus` (part_004 lines 368-393).  The accessor call uses
the field selector `status.phase=Pending`, modelled by the filter; the
function never touches `ResourceIssues`. -/
def checkSchedulingStatus (pods : List Pod) : SchedulingStatus where
  pendingPods := schedLoop (pods.filter (fun p => p.phase == "Pending")) []
  resourceIssues := []

/-! ## Authentication check (`checkAuthStatus`) -/

def roleArnKey : String := "eks.amazonaws.com/role-arn"

/-- Annotation lookup (Go `annotations[key]` with the `exists` flag). -/
def lookupAnnot (annots : List (String × String)) (k : String) : Option String :=
  (annots.find? (fun kv => kv.1 == k)).map (fun kv => kv.2)

/-- Go's `strings.Contains hay needle` for a nonempty needle: `splitOn` yields
more than one part exactly when the needle occurs. -/
def strContainsSub (hay needle : String) : Bool :=
  (hay.splitOn needle).length > 1

/-- The IRSA finding text of `checkAuthStatus`. -/
def irsaIssueText (sa : ServiceAccount) (role : String) (p : Pod) : String :=
  "Pod " ++ p.ns ++ "/" ++ p.name ++ " using SA " ++ sa.name ++ " with role "
    ++ role ++ " has AWS access issues"

/-- The function `checkAuthStatus` (part_004 lines 395-432): for each service account with
the role-arn annotation, scan the logs of its running pods for
authorization-denied substrings; per-account pod-list and per-pod log errors
are skipped (`continue`), not propagated. -/
def checkAuthStatus (sas : List ServiceAccount)
    (podsForSA : ServiceAccount → Except K8sError (List Pod))
    (podLogs : Pod → Except K8sError String) : AuthStatus where
  irsaIssues :=
    sas.foldl (fun acc sa =>
      match lookupAnnot sa.annots roleArnKey with
      | none => acc
      | some role =>
        match podsForSA sa with
        | .error _ => acc
        | .ok pods =>
          pods.foldl (fun acc2 p =>
            if p.phase == "Running" then
              match podLogs p with
              | .error _ => acc2
              | .ok logs =>
                if strContainsSub logs ("AccessDenied")
                    || strContainsSub logs ("UnauthorizedOperation") then
                  acc2 ++ [irsaIssueText sa role p]
                else acc2
            else acc2) acc) []
  rbacIssues := []
  iamAuthIssues := []

/-! ## Node-readiness check (`checkNodeStatus`) -/

/-- The readiness loop of `checkNodeStatus`: the first condition of type
`Ready` decides (`break`); a node with no `Ready` condition is not ready. -/
def nodeIsReady (n : Node) : Bool :=
  match n.conditions.find? (fun c => c.condType == "Ready") with
  | some c => c.condStatus == "True"
  | none => false

/-- The bootstrap-issue lines recorded for a not-ready node: one per
condition (of any type, `Ready` included) whose status is `False`. -/
def bootstrapIssuesOf (n : Node) : List String :=
  (n.conditions.filter (fun c => c.condStatus == "False")).map
    (fun c => "Node " ++ n.name ++ ": " ++ c.condType ++ " - " ++ c.message)

/-- One loop iteration of `checkNodeStatus`. -/
def nodeStatusStep (st : NodeStatus) (n : Node) : NodeStatus :=
  if nodeIsReady n then st
  else
    { st with
      notReady := st.notReady ++ [n.name]
      bootstrapIssues := st.bootstrapIssues ++ bootstrapIssuesOf n }

/-- The function `checkNodeStatus` (part_004 lines 434-462). -/
def checkNodeStatus (nodes : List Node) : NodeStatus :=
  nodes.foldl nodeStatusStep { notReady := [], asgIssues := [], bootstrapIssues := [] }

/-! ## Cluster resources (`GetClusterResources`, part_004 lines 544-582) -/

/-- The result structure of `GetClusterResources`.  The Go percentages are
`float64`; they are modelled as `ℚ` (at the fixture the claims test — 1000m
of 4000m and 1Gi of 8Gi — the binary floating-point computation is exact, so
the rational value coincides with the Go value). -/
structure ClusterResources where
  totalCPU : Int
  totalMemory : Int
  allocatedCPU : Int
  allocatedMemory : Int
  cpuPercentage : ℚ
  memPercentage : ℚ
deriving DecidableEq, Repr

/-- Sum of the CPU requests (milli-cores) of a pod's containers. -/
def podRequestsCPU (p : Pod) : Int :=
  (p.containers.map (fun c => c.requestsCPUMilli)).sum

/-- Sum of the memory requests (bytes) of a pod's containers. -/
def podRequestsMemory (p : Pod) : Int :=
  (p.containers.map (fun c => c.requestsMemoryBytes)).sum

/-- The function `GetClusterResources`: total capacity summed over nodes; allocation
summed, per node, over the container requests of the pods bound to that node
(the accessor call uses the field selector `spec.nodeName=<node>`, modelled
by the filter); percentages guarded by a positive total. -/
def GetClusterResources (nodes : List Node) (pods : List Pod) : ClusterResources :=
  let totalCPU := (nodes.map (fun n => n.capacityCPUMilli)).sum
  let totalMemory := (nodes.map (fun n => n.capacityMemoryBytes)).sum
  let allocatedCPU :=
    (nodes.map (fun n =>
      ((pods.filter (fun p => p.nodeName == n.name)).map podRequestsCPU).sum)).sum
  let allocatedMemory :=
    (nodes.map (fun n =>
      ((pods.filter (fun p => p.nodeName == n.name)).map podRequestsMemory).sum)).sum
  { totalCPU := totalCPU
    totalMemory := totalMemory
    allocatedCPU := allocatedCPU
    allocatedMemory := allocatedMemory
    cpuPercentage :=
      if totalCPU > 0 then (allocatedCPU : ℚ) / (totalCPU : ℚ) * 100 else 0
    memPercentage :=
      if totalMemory > 0 then (allocatedMemory : ℚ) / (totalMemory : ℚ) * 100 else 0 }

/-! ## IRSA token validation (`ValidatePodWebIdentityToken`, part_004 lines 594-618) -/

/-- The volume scan of `ValidatePodWebIdentityToken`: does any volume of the
pod's spec carry a projected source with a service-account token? -/
def hasTokenVolume (p : Pod) : Bool :=
  p.volumes.any (fun v =>
    match v.projected with
    | some sources => sources.any (fun s => s.hasServiceAccountToken)
    | none => false)

/-- The function `ValidatePodWebIdentityToken` on a retrieved pod: `some errText` models
the returned error, `none` success. -/
def ValidatePodWebIdentityToken (p : Pod) : Option String :=
  if hasTokenVolume p then none
  else some ("pod does not have service account token volume mounted")

/-! ## The accessor environment and `CheckClusterHealth` -/

/-- The results of the accessor calls one `CheckClusterHealth` run performs,
one field per call site.  `podsForSA` and `podLogs` are the per-service-account
and per-pod calls of `checkAuthStatus`. -/
structure ClusterEnv where
  nodes : Except K8sError (List Node)
  deployments : Except K8sError (List Deployment)
  fluentBitPods : Except K8sError (List Pod)
  cloudWatchPods : Except K8sError (List Pod)
  metricsServerPods : Except K8sError (List Pod)
  cniPods : Except K8sError (List Pod)
  coreDNSPods : Except K8sError (List Pod)
  services : Except K8sError (List Service)
  ingresses : Except K8sError (List Ingress)
  allPods : Except K8sError (List Pod)
  serviceAccounts : Except K8sError (List ServiceAccount)
  podsForSA : ServiceAccount → Except K8sError (List Pod)
  podLogs : Pod → Except K8sError String

/-- The logging check's error handling, `if err != nil && !errors.IsNotFound(err)`:
a not-found error contributes an empty pod list instead of failing. -/
def podsOrEmptyOnNotFound (r : Except K8sError (List Pod)) :
    Except K8sError (List Pod) :=
  match r with
  | .ok ps => .ok ps
  | .error e => if e.isNotFound then .ok [] else .error e

/-- The version-skew sub-check with its accessor call. -/
def checkVersionMismatchE (env : ClusterEnv) :
    Except K8sError (List (String × List String)) :=
  match env.nodes with
  | .error e => .error e
  | .ok nodes => .ok (checkVersionMismatch nodes)

/-- The deprecated-API sub-check with its accessor call. -/
def checkDeprecatedAPIsE (env : ClusterEnv) : Except K8sError (List String) :=
  match env.deployments with
  | .error e => .error e
  | .ok deployments => .ok (checkDeprecatedAPIs deployments)

/-- The logging sub-check with its three accessor calls. -/
def checkLoggingStatusE (env : ClusterEnv) : Except K8sError LoggingStatus :=
  match podsOrEmptyOnNotFound env.fluentBitPods with
  | .error e => .error e
  | .ok fb =>
    match podsOrEmptyOnNotFound env.cloudWatchPods with
    | .error e => .error e
    | .ok cw =>
      match podsOrEmptyOnNotFound env.metricsServerPods with
      | .error e => .error e
      | .ok ms => .ok (checkLoggingStatus fb cw ms)

/-- The networking sub-check with its two accessor calls (errors propagate). -/
def checkNetworkingStatusE (env : ClusterEnv) : Except K8sError NetworkingStatus :=
  match env.cniPods with
  | .error e => .error e
  | .ok cni =>
    match env.coreDNSPods with
    | .error e => .error e
    | .ok dns => .ok (checkNetworkingStatus cni dns)

/-- The load-balancer sub-check with its two accessor calls. -/
def checkLoadBalancerStatusE (env : ClusterEnv) : Except K8sError LoadBalancerStatus :=
  match env.services with
  | .error e => .error e
  | .ok svcs =>
    match env.ingresses with
    | .error e => .error e
    | .ok ings => .ok (checkLoadBalancerStatus svcs ings)

/-- The scheduling sub-check with its accessor call. -/
def checkSchedulingStatusE (env : ClusterEnv) : Except K8sError SchedulingStatus :=
  match env.allPods with
  | .error e => .error e
  | .ok pods => .ok (checkSchedulingStatus pods)

/-- The authentication sub-check: only the service-account list error
propagates; inner errors are skipped inside `checkAuthStatus`. -/
def checkAuthStatusE (env : ClusterEnv) : Except K8sError AuthStatus :=
  match env.serviceAccounts with
  | .error e => .error e
  | .ok sas => .ok (checkAuthStatus sas env.podsForSA env.podLogs)

/-- The node-readiness sub-check with its accessor call. -/
def checkNodeStatusE (env : ClusterEnv) : Except K8sError NodeStatus :=
  match env.nodes with
  | .error e => .error e
  | .ok nodes => .ok (checkNodeStatus nodes)

/-- The function `CheckClusterHealth` (part_004 lines 158-204, identical in part_003):
run the eight sub-checks in source order; every sub-check error is returned
immediately (`return nil, err`), and only when all succeed is the assembled
snapshot returned. -/
def CheckClusterHealth (env : ClusterEnv) : Except K8sError ClusterHealthStatus :=
  match checkVersionMismatchE env with
  | .error e => .error e
  | .ok nodeVersions =>
    match checkDeprecatedAPIsE env with
    | .error e => .error e
    | .ok deprecatedAPIs =>
      match checkLoggingStatusE env with
      | .error e => .error e
      | .ok loggingStatus =>
        match checkNetworkingStatusE env with
        | .error e => .error e
        | .ok networkingStatus =>
          match checkLoadBalancerStatusE env with
          | .error e => .error e
          | .ok loadBalancerStatus =>
            match checkSchedulingStatusE env with
            | .error e => .error e
            | .ok schedulingStatus =>
              match checkAuthStatusE env with
              | .error e => .error e
              | .ok authStatus =>
                match checkNodeStatusE env with
                | .error e => .error e
                | .ok nodeStatus =>
                  .ok { nodeVersions, deprecatedAPIs, loggingStatus,
                        networkingStatus, loadBalancerStatus, schedulingStatus,
                        authStatus, nodeStatus }

/-! ## Report synthesis (`printHealthSummary`, part_008 lines 361-409) -/

/-- The critical-issue counter of `printHealthSummary`: version mismatch
(more than one `NodeVersions` key) is the only critical issue. -/
def criticalCount (s : ClusterHealthStatus) : Nat :=
  if s.nodeVersions.length > 1 then 1 else 0

/-- The total-issue counter of `printHealthSummary`: the sum of the six
per-category finding counts.  The critical (version-skew) issue is not added
to this sum in the source. -/
def totalCount (s : ClusterHealthStatus) : Nat :=
  s.deprecatedAPIs.length + s.authStatus.irsaIssues.length
    + s.authStatus.rbacIssues.length + s.nodeStatus.notReady.length
    + s.schedulingStatus.pendingPods.length
    + s.loadBalancerStatus.pendingServices.length

def recUpgradeNodes : String := "1. Upgrade nodes to match control plane version"
def recUpdateAPIs : String := "2. Update applications using deprecated APIs"
def recFixIRSA : String := "3. Fix IRSA configuration issues"
def recFixRBAC : String := "4. Review and fix RBAC issues"
def recNotReadyNodes : String := "5. Investigate nodes in NotReady state"
def recSchedulingIssues : String := "6. Address pod scheduling issues"
def recLoadBalancer : String := "7. Check LoadBalancer provisioning issues"

/-- The seven recommendation lines in their fixed numbered order. -/
def masterRecs : List String :=
  [recUpgradeNodes, recUpdateAPIs, recFixIRSA, recFixRBAC, recNotReadyNodes,
   recSchedulingIssues, recLoadBalancer]

/-- The ordered recommendation list `printHealthSummary` emits: printed only
when `totalIssues > 0`, one line per category with at least one finding, in
the fixed numbered order. -/
def recommendations (s : ClusterHealthStatus) : List String :=
  if totalCount s > 0 then
    (if s.nodeVersions.length > 1 then [recUpgradeNodes] else [])
      ++ (if s.deprecatedAPIs.length > 0 then [recUpdateAPIs] else [])
      ++ (if s.authStatus.irsaIssues.length > 0 then [recFixIRSA] else [])
      ++ (if s.authStatus.rbacIssues.length > 0 then [recFixRBAC] else [])
      ++ (if s.nodeStatus.notReady.length > 0 then [recNotReadyNodes] else [])
      ++ (if s.schedulingStatus.pendingPods.length > 0 then [recSchedulingIssues] else [])
      ++ (if s.loadBalancerStatus.pendingServices.length > 0 then [recLoadBalancer] else [])
  else []

/-! ## Helper lemmas: the version-grouping association list -/

theorem mapFind_mapAppend_self (m : List (String × List String)) (k v : String) :
    mapFind? (mapAppend m k v) k = some (((mapFind? m k).getD []) ++ [v]) := by
  induction m with
  | nil => simp [mapAppend, mapFind?]
  | cons hd tl ih =>
    obtain ⟨k1, vs⟩ := hd
    by_cases hk : k1 = k
    · subst hk; simp [mapAppend, mapFind?]
    · simp [mapAppend, mapFind?, hk, ih]

theorem mapFind_mapAppend_ne (m : List (String × List String)) (k v k2 : String)
    (h : k2 ≠ k) : mapFind? (mapAppend m k v) k2 = mapFind? m k2 := by
  induction m with
  | nil =>
    have hne : ¬k = k2 := fun hh => h hh.symm
    simp [mapAppend, mapFind?, hne]
  | cons hd tl ih =>
    obtain ⟨k1, vs⟩ := hd
    by_cases hk : k1 = k
    · subst hk
      have hne : ¬k1 = k2 := fun hh => h hh.symm
      simp [mapAppend, mapFind?, hne]
    · simp [mapAppend, mapFind?, hk, ih]

theorem foldl_addNodeVersion_preserves (nodes : List Node)
    (m : List (String × List String)) (k x : String)
    (h : ∃ vs, mapFind? m k = some vs ∧ x ∈ vs) :
    ∃ vs, mapFind? (nodes.foldl addNodeVersion m) k = some vs ∧ x ∈ vs := by
  induction nodes generalizing m with
  | nil => exact h
  | cons nd tl ih =>
    rw [List.foldl_cons]
    apply ih
    obtain ⟨vs, hfind, hx⟩ := h
    by_cases hk : k = nd.kubeletVersion
    · subst hk
      refine ⟨(mapFind? m nd.kubeletVersion).getD [] ++ [nd.name], ?_, ?_⟩
      · exact mapFind_mapAppend_self m nd.kubeletVersion nd.name
      · rw [hfind]; exact List.mem_append_left _ hx
    · exact ⟨vs, by rw [addNodeVersion, mapFind_mapAppend_ne m _ _ _ hk]; exact hfind, hx⟩

theorem mem_mapFind_checkVersionMismatch (nodes : List Node) (nd : Node)
    (h : nd ∈ nodes) :
    ∃ vs, mapFind? (checkVersionMismatch nodes) nd.kubeletVersion = some vs
      ∧ nd.name ∈ vs := by
  suffices hgen : ∀ (l : List Node) (m : List (String × List String)) (n : Node),
      n ∈ l → ∃ vs, mapFind? (l.foldl addNodeVersion m) n.kubeletVersion = some vs
        ∧ n.name ∈ vs from hgen nodes [] nd h
  intro l
  induction l with
  | nil => intro m n hn; cases hn
  | cons hd tl ih =>
    intro m n hn
    rw [List.foldl_cons]
    rcases List.mem_cons.mp hn with heq | hmem
    · subst heq
      apply foldl_addNodeVersion_preserves
      refine ⟨(mapFind? m n.kubeletVersion).getD [] ++ [n.name], ?_, ?_⟩
      · exact mapFind_mapAppend_self m n.kubeletVersion n.name
      · exact List.mem_append_right _ (List.mem_singleton.mpr rfl)
    · exact ih _ n hmem

theorem mem_entry_mapAppend (m : List (String × List String)) (k v k2 : String)
    (vs : List String) (h : (k2, vs) ∈ mapAppend m k v) (x : String) (hx : x ∈ vs) :
    (∃ vs0, (k2, vs0) ∈ m ∧ x ∈ vs0) ∨ (k2 = k ∧ x = v) := by
  induction m with
  | nil =>
    simp only [mapAppend, List.mem_singleton] at h
    rw [Prod.mk.injEq] at h
    obtain ⟨hk, hvs⟩ := h
    right
    refine ⟨hk, ?_⟩
    subst hvs
    simpa using hx
  | cons hd tl ih =>
    obtain ⟨k1, vs1⟩ := hd
    by_cases hk : k1 = k
    · subst hk
      simp only [mapAppend, if_pos rfl, if_true, List.mem_cons] at h
      rcases h with h | h
      · rw [Prod.mk.injEq] at h
        obtain ⟨hk2, hvs⟩ := h
        subst hk2
        subst hvs
        rcases List.mem_append.mp hx with hx1 | hx2
        · exact Or.inl ⟨vs1, List.mem_cons_self _ _, hx1⟩
        · exact Or.inr ⟨rfl, List.mem_singleton.mp hx2⟩
      · exact Or.inl ⟨vs, List.mem_cons_of_mem _ h, hx⟩
    · simp only [mapAppend, if_neg hk, List.mem_cons] at h
      rcases h with h | h
      · exact Or.inl ⟨vs, List.mem_cons.mpr (Or.inl h), hx⟩
      · rcases ih h with ⟨vs0, hmem, hx0⟩ | hkv
        · exact Or.inl ⟨vs0, List.mem_cons_of_mem _ hmem, hx0⟩
        · exact Or.inr hkv

theorem entries_foldl_addNodeVersion (nodes : List Node)
    (m : List (String × List String)) (k : String) (vs : List String)
    (h : (k, vs) ∈ nodes.foldl addNodeVersion m) (x : String) (hx : x ∈ vs) :
    (∃ vs0, (k, vs0) ∈ m ∧ x ∈ vs0)
      ∨ ∃ nd, nd ∈ nodes ∧ nd.name = x ∧ nd.kubeletVersion = k := by
  induction nodes generalizing m vs with
  | nil => exact Or.inl ⟨vs, h, hx⟩
  | cons hd tl ih =>
    rw [List.foldl_cons] at h
    rcases ih (addNodeVersion m hd) vs h hx with ⟨vs0, hmem, hx0⟩ | ⟨nd, hnd, hname, hver⟩
    · rcases mem_entry_mapAppend m hd.kubeletVersion hd.name k vs0 hmem x hx0 with
        ⟨vs1, hmem1, hx1⟩ | ⟨hk, hv⟩
      · exact Or.inl ⟨vs1, hmem1, hx1⟩
      · exact Or.inr ⟨hd, List.mem_cons_self _ _, hv.symm, hk.symm⟩
    · exact Or.inr ⟨nd, List.mem_cons_of_mem _ hnd, hname, hver⟩

theorem name_in_checkVersionMismatch_from_node (nodes : List Node) (k : String)
    (vs : List String) (h : (k, vs) ∈ checkVersionMismatch nodes) (x : String)
    (hx : x ∈ vs) : ∃ nd, nd ∈ nodes ∧ nd.name = x ∧ nd.kubeletVersion = k := by
  rcases entries_foldl_addNodeVersion nodes [] k vs h x hx with ⟨vs0, hmem, _⟩ | hgood
  · cases hmem
  · exact hgood

/-! ## Helper lemmas: the scheduling loop -/

theorem schedLoop_eq (pods : List Pod) (acc : List PodSchedulingIssue) :
    schedLoop pods acc
      = acc ++ pods.map (fun p => { pod := p.name, ns := p.ns, reason := schedReason p }) := by
  induction pods generalizing acc with
  | nil => simp [schedLoop]
  | cons p rest ih => simp [schedLoop, ih]

/-! ## Helper lemmas: the node-status fold -/

theorem foldl_nodeStatusStep (nodes : List Node) (st : NodeStatus) :
    nodes.foldl nodeStatusStep st =
      { notReady := st.notReady ++ (nodes.filter (fun n => !nodeIsReady n)).map Node.name
        asgIssues := st.asgIssues
        bootstrapIssues := st.bootstrapIssues
          ++ ((nodes.filter (fun n => !nodeIsReady n)).map bootstrapIssuesOf).flatten } := by
  induction nodes generalizing st with
  | nil => simp
  | cons hd tl ih =>
    rw [List.foldl_cons, ih]
    by_cases h : nodeIsReady hd
    · simp [nodeStatusStep, h, List.filter_cons]
    · simp [nodeStatusStep, h, List.filter_cons]

/-! ## Helper lemmas: the run function -/

theorem run_error_vm (env : ClusterEnv) (e : K8sError)
    (h : checkVersionMismatchE env = .error e) : CheckClusterHealth env = .error e := by
  unfold CheckClusterHealth; rw [h]

theorem run_error_dep (env : ClusterEnv) (v1 : List (String × List String))
    (e : K8sError) (h1 : checkVersionMismatchE env = .ok v1)
    (h : checkDeprecatedAPIsE env = .error e) : CheckClusterHealth env = .error e := by
  unfold CheckClusterHealth; rw [h1, h]

theorem run_error_log (env : ClusterEnv) (v1 : List (String × List String))
    (v2 : List String) (e : K8sError) (h1 : checkVersionMismatchE env = .ok v1)
    (h2 : checkDeprecatedAPIsE env = .ok v2)
    (h : checkLoggingStatusE env = .error e) : CheckClusterHealth env = .error e := by
  unfold CheckClusterHealth; rw [h1, h2, h]

theorem run_error_net (env : ClusterEnv) (v1 : List (String × List String))
    (v2 : List String) (v3 : LoggingStatus) (e : K8sError)
    (h1 : checkVersionMismatchE env = .ok v1) (h2 : checkDeprecatedAPIsE env = .ok v2)
    (h3 : checkLoggingStatusE env = .ok v3)
    (h : checkNetworkingStatusE env = .error e) : CheckClusterHealth env = .error e := by
  unfold CheckClusterHealth; rw [h1, h2, h3, h]

theorem run_error_lb (env : ClusterEnv) (v1 : List (String × List String))
    (v2 : List String) (v3 : LoggingStatus) (v4 : NetworkingStatus) (e : K8sError)
    (h1 : checkVersionMismatchE env = .ok v1) (h2 : checkDeprecatedAPIsE env = .ok v2)
    (h3 : checkLoggingStatusE env = .ok v3) (h4 : checkNetworkingStatusE env = .ok v4)
    (h : checkLoadBalancerStatusE env = .error e) : CheckClusterHealth env = .error e := by
  unfold CheckClusterHealth; rw [h1, h2, h3, h4, h]

theorem run_error_sched (env : ClusterEnv) (v1 : List (String × List String))
    (v2 : List String) (v3 : LoggingStatus) (v4 : NetworkingStatus)
    (v5 : LoadBalancerStatus) (e : K8sError)
    (h1 : checkVersionMismatchE env = .ok v1) (h2 : checkDeprecatedAPIsE env = .ok v2)
    (h3 : checkLoggingStatusE env = .ok v3) (h4 : checkNetworkingStatusE env = .ok v4)
    (h5 : checkLoadBalancerStatusE env = .ok v5)
    (h : checkSchedulingStatusE env = .error e) : CheckClusterHealth env = .error e := by
  unfold CheckClusterHealth; rw [h1, h2, h3, h4, h5, h]

theorem run_error_auth (env : ClusterEnv) (v1 : List (String × List String))
    (v2 : List String) (v3 : LoggingStatus) (v4 : NetworkingStatus)
    (v5 : LoadBalancerStatus) (v6 : SchedulingStatus) (e : K8sError)
    (h1 : checkVersionMismatchE env = .ok v1) (h2 : checkDeprecatedAPIsE env = .ok v2)
    (h3 : checkLoggingStatusE env = .ok v3) (h4 : checkNetworkingStatusE env = .ok v4)
    (h5 : checkLoadBalancerStatusE env = .ok v5) (h6 : checkSchedulingStatusE env = .ok v6)
    (h : checkAuthStatusE env = .error e) : CheckClusterHealth env = .error e := by
  unfold CheckClusterHealth; rw [h1, h2, h3, h4, h5, h6, h]

theorem run_error_node (env : ClusterEnv) (v1 : List (String × List String))
    (v2 : List String) (v3 : LoggingStatus) (v4 : NetworkingStatus)
    (v5 : LoadBalancerStatus) (v6 : SchedulingStatus) (v7 : AuthStatus) (e : K8sError)
    (h1 : checkVersionMismatchE env = .ok v1) (h2 : checkDeprecatedAPIsE env = .ok v2)
    (h3 : checkLoggingStatusE env = .ok v3) (h4 : checkNetworkingStatusE env = .ok v4)
    (h5 : checkLoadBalancerStatusE env = .ok v5) (h6 : checkSchedulingStatusE env = .ok v6)
    (h7 : checkAuthStatusE env = .ok v7)
    (h : checkNodeStatusE env = .error e) : CheckClusterHealth env = .error e := by
  unfold CheckClusterHealth; rw [h1, h2, h3, h4, h5, h6, h7, h]

theorem run_ok (env : ClusterEnv) (v1 : List (String × List String))
    (v2 : List String) (v3 : LoggingStatus) (v4 : NetworkingStatus)
    (v5 : LoadBalancerStatus) (v6 : SchedulingStatus) (v7 : AuthStatus) (v8 : NodeStatus)
    (h1 : checkVersionMismatchE env = .ok v1) (h2 : checkDeprecatedAPIsE env = .ok v2)
    (h3 : checkLoggingStatusE env = .ok v3) (h4 : checkNetworkingStatusE env = .ok v4)
    (h5 : checkLoadBalancerStatusE env = .ok v5) (h6 : checkSchedulingStatusE env = .ok v6)
    (h7 : checkAuthStatusE env = .ok v7) (h8 : checkNodeStatusE env = .ok v8) :
    CheckClusterHealth env
      = .ok { nodeVersions := v1, deprecatedAPIs := v2, loggingStatus := v3,
              networkingStatus := v4, loadBalancerStatus := v5,
              schedulingStatus := v6, authStatus := v7, nodeStatus := v8 } := by
  unfold CheckClusterHealth; rw [h1, h2, h3, h4, h5, h6, h7, h8]

/-! ## Concrete fixtures -/

/-- Node n1 of the version-skew scenario, kubelet version 1.28. -/
def nodeN1 : Node :=
  { name := "n1", kubeletVersion := "1.28", conditions := [],
    capacityCPUMilli := 0, capacityMemoryBytes := 0 }

/-- Node n2 of the version-skew scenario, kubelet version 1.29. -/
def nodeN2 : Node :=
  { name := "n2", kubeletVersion := "1.29", conditions := [],
    capacityCPUMilli := 0, capacityMemoryBytes := 0 }

/-- Node n3 of the version-skew scenario, kubelet version 1.29. -/
def nodeN3 : Node :=
  { name := "n3", kubeletVersion := "1.29", conditions := [],
    capacityCPUMilli := 0, capacityMemoryBytes := 0 }

def skewNodes : List Node := [nodeN1, nodeN2, nodeN3]

/-- The snapshot of a cluster whose only finding is the version skew of
`skewNodes`: two version groups, every other category empty. -/
def skewOnlySnapshot : ClusterHealthStatus :=
  { emptySnapshot with nodeVersions := checkVersionMismatch skewNodes }

/-- A snapshot with version skew and one deprecated-API finding. -/
def skewAndDeprecatedSnapshot : ClusterHealthStatus :=
  { emptySnapshot with
    nodeVersions := checkVersionMismatch skewNodes
    deprecatedAPIs := ["Deployment default/legacy uses deprecated APIs"] }

/-- A pod in `Pending` phase that carries no condition at all. -/
def pendingNoCondPod : Pod :=
  { name := "p1", ns := "default", phase := "Pending", message := "",
    nodeName := "", conditions := [], volumes := [], containers := [] }

/-- The node of the scheduling scenario: capacity cpu 4000m, memory 8Gi. -/
def schedNode : Node :=
  { name := "node-1", kubeletVersion := "1.29", conditions := [],
    capacityCPUMilli := 4000, capacityMemoryBytes := 8589934592 }

/-- The pod of the scheduling scenario: bound to `node-1`, one container
requesting cpu 1000m and memory 1Gi. -/
def schedPod : Pod :=
  { name := "app-1", ns := "default", phase := "Running", message := "",
    nodeName := "node-1", conditions := [], volumes := [],
    containers := [{ requestsCPUMilli := 1000, requestsMemoryBytes := 1073741824, env := [] }] }

/-- A node whose single condition is `Ready` with status `False`. -/
def readyFalseNode : Node :=
  { name := "n-bad", kubeletVersion := "1.29",
    conditions := [{ condType := "Ready", condStatus := "False", message := "kubelet stopped" }],
    capacityCPUMilli := 0, capacityMemoryBytes := 0 }

/-- A healthy CNI pod. -/
def cniPodOK : Pod :=
  { name := "aws-node-1", ns := "kube-system", phase := "Running", message := "",
    nodeName := "n1", conditions := [], volumes := [], containers := [] }

/-- A healthy CoreDNS pod. -/
def dnsPodOK : Pod :=
  { name := "coredns-1", ns := "kube-system", phase := "Running", message := "",
    nodeName := "n1", conditions := [], volumes := [], containers := [] }

/-- The IRSA environment variables of the test fixture. -/
def irsaEnvVars : List (String × String) :=
  [("AWS_ROLE_ARN", "arn:aws:iam::123456789012:role/test-role"),
   ("AWS_WEB_IDENTITY_TOKEN_FILE", "/var/run/secrets/eks.amazonaws.com/serviceaccount/token")]

/-- IRSA fixture pod with a projected service-account-token volume. -/
def podWithTokenVolume : Pod :=
  { name := "irsa-ok", ns := "default", phase := "Running", message := "",
    nodeName := "", conditions := [],
    volumes := [{ projected := some [{ hasServiceAccountToken := true }] }],
    containers := [{ requestsCPUMilli := 0, requestsMemoryBytes := 0, env := irsaEnvVars }] }

/-- IRSA fixture pod with `AWS_ROLE_ARN` set but no token volume. -/
def podMissingTokenVolume : Pod :=
  { name := "irsa-bad", ns := "default", phase := "Running", message := "",
    nodeName := "", conditions := [], volumes := [],
    containers := [{ requestsCPUMilli := 0, requestsMemoryBytes := 0, env := irsaEnvVars }] }

/-- The accessor error of the networking-failure scenario. -/
def accessDeniedErr : K8sError := { msg := "AccessDenied", isNotFound := false }

/-- An environment in which every accessor succeeds except the CNI pod list
of the networking check, which is denied. -/
def envNetworkingDenied : ClusterEnv where
  nodes := .ok skewNodes
  deployments := .ok []
  fluentBitPods := .ok []
  cloudWatchPods := .ok []
  metricsServerPods := .ok []
  cniPods := .error accessDeniedErr
  coreDNSPods := .ok [dnsPodOK]
  services := .ok []
  ingresses := .ok []
  allPods := .ok [pendingNoCondPod]
  serviceAccounts := .ok []
  podsForSA := fun _ => .ok []
  podLogs := fun _ => .ok ""

/-- An environment in which every accessor succeeds. -/
def envAllOk : ClusterEnv where
  nodes := .ok skewNodes
  deployments := .ok []
  fluentBitPods := .ok []
  cloudWatchPods := .ok []
  metricsServerPods := .ok []
  cniPods := .ok [cniPodOK]
  coreDNSPods := .ok [dnsPodOK]
  services := .ok []
  ingresses := .ok []
  allPods := .ok [pendingNoCondPod]
  serviceAccounts := .ok []
  podsForSA := fun _ => .ok []
  podLogs := fun _ => .ok ""

/-! ## Helper lemmas: readiness and the token volume -/

/-- With at most one `Ready` condition in the list (the Kubernetes invariant:
condition types are unique per node), the loop's first-`Ready`-decides rule
agrees with "some `Ready = True` condition exists". -/
theorem readyScan_iff (l : List NodeCondition)
    (h : l.countP (fun c => c.condType == "Ready") ≤ 1) :
    (match l.find? (fun c => c.condType == "Ready") with
      | some c => c.condStatus == "True"
      | none => false) = true
      ↔ ∃ c, c ∈ l ∧ c.condType = "Ready" ∧ c.condStatus = "True" := by
  induction l with
  | nil => simp
  | cons a tl ih =>
    by_cases ha : a.condType = "Ready"
    · have hpa : (fun c : NodeCondition => c.condType == "Ready") a = true := by
        simp [ha]
      rw [List.countP_cons, if_pos hpa] at h
      have htl : tl.countP (fun c => c.condType == "Ready") = 0 := by omega
      have hnone : ∀ c, c ∈ tl → ¬(c.condType = "Ready") := by
        intro c hc hcr
        have := List.countP_eq_zero.mp htl c hc
        simp [hcr] at this
      rw [show List.find? (fun c : NodeCondition => c.condType == "Ready") (a :: tl)
            = some a from List.find?_cons_of_pos _ hpa]
      constructor
      · intro hst
        exact ⟨a, List.mem_cons_self _ _, ha, by simpa using hst⟩
      · rintro ⟨c, hc, hcr, hcs⟩
        rcases List.mem_cons.mp hc with rfl | hctl
        · simp [hcs]
        · exact absurd hcr (hnone c hctl)
    · have hpa : (fun c : NodeCondition => c.condType == "Ready") a = false := by
        simp [ha]
      rw [List.countP_cons, if_neg (by simp [ha])] at h
      rw [show List.find? (fun c : NodeCondition => c.condType == "Ready") (a :: tl)
            = List.find? (fun c : NodeCondition => c.condType == "Ready") tl from
          List.find?_cons_of_neg _ (by simp [ha])]
      rw [ih (by omega)]
      constructor
      · rintro ⟨c, hc, hcr, hcs⟩
        exact ⟨c, List.mem_cons_of_mem _ hc, hcr, hcs⟩
      · rintro ⟨c, hc, hcr, hcs⟩
        rcases List.mem_cons.mp hc with rfl | hctl
        · exact absurd hcr ha
        · exact ⟨c, hctl, hcr, hcs⟩

/-- With at most one `Ready` condition on the node (the Kubernetes
invariant: condition types are unique per node), the loop's
first-`Ready`-decides rule agrees with "some `Ready = True` exists". -/
theorem nodeIsReady_iff_exists (n : Node)
    (h : n.conditions.countP (fun c => c.condType == "Ready") ≤ 1) :
    nodeIsReady n = true
      ↔ ∃ c, c ∈ n.conditions ∧ c.condType = "Ready" ∧ c.condStatus = "True" := by
  unfold nodeIsReady
  exact readyScan_iff n.conditions h

/-- The volume scan of `ValidatePodWebIdentityToken` succeeds exactly when
some volume has a projected source carrying a service-account token. -/
theorem hasTokenVolume_iff_exists (p : Pod) :
    hasTokenVolume p = true
      ↔ ∃ v, v ∈ p.volumes ∧ ∃ sources, v.projected = some sources
          ∧ ∃ src, src ∈ sources ∧ src.hasServiceAccountToken = true := by
  unfold hasTokenVolume
  rw [List.any_eq_true]
  constructor
  · rintro ⟨v, hv, hpred⟩
    cases hproj : v.projected with
    | none => rw [hproj] at hpred; cases hpred
    | some sources =>
      rw [hproj] at hpred
      obtain ⟨src, hsrc, hs⟩ := List.any_eq_true.mp hpred
      exact ⟨v, hv, sources, hproj, src, hsrc, hs⟩
  · rintro ⟨v, hv, sources, hproj, src, hsrc, hs⟩
    refine ⟨v, hv, ?_⟩
    rw [hproj]
    exact List.any_eq_true.mpr ⟨src, hsrc, hs⟩

/-! ## Helper lemmas for the synthesizer claims -/

theorem iteSingleton_sublist (c : Prop) [Decidable c] (r : String) :
    ((if c then [r] else []) : List String).Sublist [r] := by
  split
  · exact List.Sublist.refl _
  · exact List.nil_sublist _

theorem masterRecs_nodup : masterRecs.Nodup := by
  decide

/-- The recommendation list is always a sublist of the seven fixed
recommendation lines in their numbered order. -/
theorem recommendations_sublist (s : ClusterHealthStatus) :
    (recommendations s).Sublist masterRecs := by
  unfold recommendations
  by_cases h : totalCount s > 0
  · rw [if_pos h]
    have h12 :=
      (iteSingleton_sublist (s.nodeVersions.length > 1) recUpgradeNodes).append
        (iteSingleton_sublist (s.deprecatedAPIs.length > 0) recUpdateAPIs)
    have h13 := h12.append
      (iteSingleton_sublist (s.authStatus.irsaIssues.length > 0) recFixIRSA)
    have h14 := h13.append
      (iteSingleton_sublist (s.authStatus.rbacIssues.length > 0) recFixRBAC)
    have h15 := h14.append
      (iteSingleton_sublist (s.nodeStatus.notReady.length > 0) recNotReadyNodes)
    have h16 := h15.append
      (iteSingleton_sublist (s.schedulingStatus.pendingPods.length > 0) recSchedulingIssues)
    have h17 := h16.append
      (iteSingleton_sublist (s.loadBalancerStatus.pendingServices.length > 0) recLoadBalancer)
    simpa [masterRecs] using h17
  · rw [if_neg h]
    exact List.nil_sublist _

/-! ## Claim theorems -/

/-- C2 (counterexample): on the snapshot whose only finding is version skew,
the synthesizer computes `criticalCount = 1` and `totalCount = 0`, so the
claimed invariant `criticalCount ≤ totalCount` fails: the critical counter is
not included in the total. -/
theorem claimC2_counterexample :
    criticalCount skewOnlySnapshot = 1 ∧ totalCount skewOnlySnapshot = 0
      ∧ ¬criticalCount skewOnlySnapshot ≤ totalCount skewOnlySnapshot := by
  refine ⟨rfl, rfl, ?_⟩
  intro hle
  have h1 : criticalCount skewOnlySnapshot = 1 := rfl
  have h2 : totalCount skewOnlySnapshot = 0 := rfl
  rw [h1, h2] at hle
  omega

/-- C2 (amended): the critical (version-skew) issue is counted separately
from `totalCount`, so only `criticalCount ≤ totalCount + 1` holds in general;
`criticalCount ≤ totalCount` does hold whenever at least one non-critical
issue was counted. -/
theorem claimC2_amended : ∀ s : ClusterHealthStatus,
    criticalCount s ≤ totalCount s + 1
      ∧ (0 < totalCount s → criticalCount s ≤ totalCount s) := by
  intro s
  constructor
  · unfold criticalCount
    split
    · omega
    · omega
  · unfold criticalCount
    split
    · omega
    · omega

/-- C3: the VersionSkew check groups node names by kubelet-version string.
On the scenario nodes `{1.28: [n1], 1.29: [n2, n3]}` the grouping has exactly
two keys with exactly those members and the synthesized report has
`criticalCount = 1`; in general every node's name is recorded under its own
version's key, and every recorded name comes from a node with exactly that
version. -/
theorem claimC3_version_grouping :
    ((checkVersionMismatch skewNodes).length = 2
      ∧ mapFind? (checkVersionMismatch skewNodes) ("1.28") = some ["n1"]
      ∧ mapFind? (checkVersionMismatch skewNodes) ("1.29") = some ["n2", "n3"]
      ∧ criticalCount skewOnlySnapshot = 1)
    ∧ (∀ (nodes : List Node) (nd : Node), nd ∈ nodes →
        ∃ vs, mapFind? (checkVersionMismatch nodes) nd.kubeletVersion = some vs
          ∧ nd.name ∈ vs)
    ∧ (∀ (nodes : List Node) (k : String) (vs : List String),
        (k, vs) ∈ checkVersionMismatch nodes → ∀ x ∈ vs,
          ∃ nd, nd ∈ nodes ∧ nd.name = x ∧ nd.kubeletVersion = k) := by
  refine ⟨⟨rfl, rfl, rfl, rfl⟩, ?_, ?_⟩
  · exact fun nodes nd h => mem_mapFind_checkVersionMismatch nodes nd h
  · exact fun nodes k vs h x hx => name_in_checkVersionMismatch_from_node nodes k vs h x hx

/-- C4 (counterexample): on the snapshot whose only finding is version skew,
`totalIssues = 0`, so `printHealthSummary` prints no recommendation at all —
the upgrade recommendation is not emitted although version skew is present
and counted as critical. -/
theorem claimC4_counterexample :
    1 < skewOnlySnapshot.nodeVersions.length
      ∧ criticalCount skewOnlySnapshot = 1
      ∧ recommendations skewOnlySnapshot = [] := by
  exact ⟨by decide, rfl, rfl⟩

/-- C4 (amended): version skew always contributes the single critical issue,
and the upgrade recommendation is emitted (exactly once) only when
`totalCount > 0`; recommendations are always a duplicate-free sublist of the
seven fixed lines in their numbered order — at most one line per category. -/
theorem claimC4_amended : ∀ s : ClusterHealthStatus,
    (recommendations s).Sublist masterRecs
    ∧ (recommendations s).Nodup
    ∧ (1 < s.nodeVersions.length →
        criticalCount s = 1
        ∧ (0 < totalCount s →
            recUpgradeNodes ∈ recommendations s
            ∧ (recommendations s).count recUpgradeNodes = 1)) := by
  intro s
  have hsub : (recommendations s).Sublist masterRecs := recommendations_sublist s
  have hnodup : (recommendations s).Nodup := hsub.nodup masterRecs_nodup
  refine ⟨hsub, hnodup, fun hskew => ⟨?_, fun htotal => ?_⟩⟩
  · unfold criticalCount
    rw [if_pos hskew]
  · have hmem : recUpgradeNodes ∈ recommendations s := by
      unfold recommendations
      rw [if_pos htotal, if_pos hskew]
      exact List.mem_append_left _ (List.mem_append_left _ (List.mem_append_left _
        (List.mem_append_left _ (List.mem_append_left _ (List.mem_append_left _
          (List.mem_singleton.mpr rfl))))))
    exact ⟨hmem, List.count_eq_one_of_mem hnodup hmem⟩

/-- C5 (counterexample): a pod in Pending phase with no `PodScheduled`
condition at all still gets a pending-pod issue recorded (with empty
reason) — the scheduling check does not require the condition. -/
theorem claimC5_counterexample :
    pendingNoCondPod.phase = "Pending" ∧ pendingNoCondPod.conditions = []
      ∧ (checkSchedulingStatus [pendingNoCondPod]).pendingPods
        = [{ pod := "p1", ns := "default", reason := "" }] := by
  exact ⟨rfl, rfl, rfl⟩

/-- C5 (amended): the scheduling check records one issue for *every* pod in
Pending phase; the issue's reason is the message of the pod's first
`PodScheduled` condition with status `False` when one exists, and the empty
string otherwise. -/
theorem claimC5_amended : ∀ pods : List Pod,
    (checkSchedulingStatus pods).pendingPods
      = (pods.filter (fun p => p.phase == "Pending")).map
          (fun p => { pod := p.name, ns := p.ns, reason := schedReason p })
    ∧ (∀ p : Pod, p ∈ pods → p.phase = "Pending" →
        ({ pod := p.name, ns := p.ns, reason := schedReason p } : PodSchedulingIssue)
          ∈ (checkSchedulingStatus pods).pendingPods) := by
  intro pods
  have heq : (checkSchedulingStatus pods).pendingPods
      = (pods.filter (fun p => p.phase == "Pending")).map
          (fun p => { pod := p.name, ns := p.ns, reason := schedReason p }) := by
    show schedLoop _ [] = _
    rw [schedLoop_eq]
    simp
  refine ⟨heq, fun p hp hpend => ?_⟩
  rw [heq]
  exact List.mem_map_of_mem _ (List.mem_filter.mpr ⟨hp, by simp [hpend]⟩)

/-- C6 (counterexample): on the exact scheduling fixture of the claim (node
capacity 4000m/8Gi, one bound pod requesting 1000m/1Gi) the scheduling
check's snapshot carries no per-node resource entry at all — `ResourceIssues`
is empty, so no 25.0% / 12.5% utilization is reported there. -/
theorem claimC6_counterexample :
    (checkSchedulingStatus [schedPod]).resourceIssues = []
      ∧ (checkSchedulingStatus [schedPod]).pendingPods = []
      ∧ schedNode.capacityCPUMilli = 4000 ∧ schedPod.nodeName = schedNode.name := by
  exact ⟨rfl, rfl, rfl, rfl⟩

/-- C6 (amended): the scheduling check never populates `ResourceIssues`;
the request-over-capacity ratios are computed only by the separate
`GetClusterResources` accessor, cluster-wide, where the claim's fixture
yields 25% CPU and 12.5% memory (values at which the Go float64 arithmetic
is exact, so the rational model coincides). -/
theorem claimC6_amended :
    (∀ pods : List Pod, (checkSchedulingStatus pods).resourceIssues = [])
    ∧ (GetClusterResources [schedNode] [schedPod]).allocatedCPU = 1000
    ∧ (GetClusterResources [schedNode] [schedPod]).totalCPU = 4000
    ∧ (GetClusterResources [schedNode] [schedPod]).cpuPercentage = 25
    ∧ (GetClusterResources [schedNode] [schedPod]).memPercentage = 25 / 2 := by
  refine ⟨fun pods => rfl, rfl, rfl, ?_, ?_⟩
  · show ((1000 : ℤ) : ℚ) / ((4000 : ℤ) : ℚ) * 100 = 25
    norm_num
  · show ((1073741824 : ℤ) : ℚ) / ((8589934592 : ℤ) : ℚ) * 100 = 25 / 2
    norm_num

/-- C7 (counterexample): a node whose single condition is `Ready = False`
is recorded as not ready, and the bootstrap-issue list contains an entry
derived from the `Ready` condition itself — conditions other than `Ready`
are not the only sources of bootstrap issues. -/
theorem claimC7_counterexample :
    checkNodeStatus [readyFalseNode]
      = { notReady := ["n-bad"], asgIssues := [],
          bootstrapIssues := ["Node n-bad: Ready - kubelet stopped"] }
      ∧ readyFalseNode.conditions
        = [{ condType := "Ready", condStatus := "False", message := "kubelet stopped" }] := by
  exact ⟨rfl, rfl⟩

/-- C7 (amended): a node joins `NotReady` exactly when its first `Ready`
condition is not `True` (equivalently, when it has at most one `Ready`
condition: exactly when no `Ready = True` condition exists); for each
not-ready node a bootstrap issue is recorded for *every* condition with
status `False`, the `Ready` condition included. -/
theorem claimC7_amended : ∀ nodes : List Node,
    (checkNodeStatus nodes).notReady
        = (nodes.filter (fun n => !nodeIsReady n)).map Node.name
    ∧ (checkNodeStatus nodes).bootstrapIssues
        = ((nodes.filter (fun n => !nodeIsReady n)).map bootstrapIssuesOf).flatten
    ∧ (checkNodeStatus nodes).asgIssues = []
    ∧ (∀ n : Node, n.conditions.countP (fun c => c.condType == "Ready") ≤ 1 →
        (nodeIsReady n = true
          ↔ ∃ c, c ∈ n.conditions ∧ c.condType = "Ready" ∧ c.condStatus = "True")) := by
  intro nodes
  have hfold := foldl_nodeStatusStep nodes
      { notReady := [], asgIssues := [], bootstrapIssues := [] }
  refine ⟨?_, ?_, ?_, ?_⟩
  · show (nodes.foldl nodeStatusStep _).notReady = _
    rw [hfold]
    simp
  · show (nodes.foldl nodeStatusStep _).bootstrapIssues = _
    rw [hfold]
    simp
  · show (nodes.foldl nodeStatusStep _).asgIssues = _
    rw [hfold]
  · exact fun n h => nodeIsReady_iff_exists n h

/-- C8 (counterexample): with a healthy CNI pod and a healthy CoreDNS pod
listed, the networking check still reports `dnsResolution = false` and
`externalAccess = false` — the booleans do not reflect any probe outcome. -/
theorem claimC8_counterexample :
    (checkNetworkingStatus [cniPodOK] [dnsPodOK]).dnsResolution = false
      ∧ (checkNetworkingStatus [cniPodOK] [dnsPodOK]).externalAccess = false
      ∧ (checkNetworkingStatus [cniPodOK] [dnsPodOK]).coreDNSStatus
        = [{ name := "coredns-1", ns := "kube-system", status := "Running", message := "" }] := by
  exact ⟨rfl, rfl, rfl⟩

/-- C8 (amended): the networking check only lists CNI and CoreDNS pods; it
performs no live probe during the health run, and the two booleans of
`NetworkingStatus` keep their zero value `false` on every input (the probe
machinery exists only in separate debug commands). -/
theorem claimC8_amended : ∀ cni dns : List Pod,
    (checkNetworkingStatus cni dns).cniStatus = cni.map toPodStatus
    ∧ (checkNetworkingStatus cni dns).coreDNSStatus = dns.map toPodStatus
    ∧ (checkNetworkingStatus cni dns).externalAccess = false
    ∧ (checkNetworkingStatus cni dns).dnsResolution = false := by
  exact fun cni dns => ⟨rfl, rfl, rfl, rfl⟩

/-- C9: `ValidatePodWebIdentityToken` returns a finding exactly when the
pod's spec has no projected volume containing a service-account-token
source; on the fixtures, the pod with `AWS_ROLE_ARN` set but no token volume
yields the finding and the pod with the volume yields none. -/
theorem claimC9_web_identity_token :
    (∀ p : Pod, (ValidatePodWebIdentityToken p).isSome = true
        ↔ ¬∃ v, v ∈ p.volumes ∧ ∃ sources, v.projected = some sources
            ∧ ∃ src, src ∈ sources ∧ src.hasServiceAccountToken = true)
    ∧ (ValidatePodWebIdentityToken podMissingTokenVolume).isSome = true
    ∧ ValidatePodWebIdentityToken podWithTokenVolume = none
    ∧ podMissingTokenVolume.containers.any
        (fun c => c.env.any (fun kv => kv.1 == "AWS_ROLE_ARN")) = true := by
  refine ⟨fun p => ?_, rfl, rfl, rfl⟩
  rw [← hasTokenVolume_iff_exists p]
  unfold ValidatePodWebIdentityToken
  by_cases h : hasTokenVolume p
  · simp [h]
  · simp [h]

/-! ## Helper lemmas: eliminating a completed run -/

/-- A successful run determines all eight sub-check results: each category
field of the returned snapshot is exactly its sub-check's (successful)
output. -/
theorem health_ok_elim (env : ClusterEnv) (s : ClusterHealthStatus)
    (hs : CheckClusterHealth env = Except.ok s) :
    checkVersionMismatchE env = Except.ok s.nodeVersions
    ∧ checkDeprecatedAPIsE env = Except.ok s.deprecatedAPIs
    ∧ checkLoggingStatusE env = Except.ok s.loggingStatus
    ∧ checkNetworkingStatusE env = Except.ok s.networkingStatus
    ∧ checkLoadBalancerStatusE env = Except.ok s.loadBalancerStatus
    ∧ checkSchedulingStatusE env = Except.ok s.schedulingStatus
    ∧ checkAuthStatusE env = Except.ok s.authStatus
    ∧ checkNodeStatusE env = Except.ok s.nodeStatus := by
  cases h1 : checkVersionMismatchE env with
  | error e => rw [run_error_vm env e h1] at hs; exact Except.noConfusion hs
  | ok v1 =>
  cases h2 : checkDeprecatedAPIsE env with
  | error e => rw [run_error_dep env v1 e h1 h2] at hs; exact Except.noConfusion hs
  | ok v2 =>
  cases h3 : checkLoggingStatusE env with
  | error e => rw [run_error_log env v1 v2 e h1 h2 h3] at hs; exact Except.noConfusion hs
  | ok v3 =>
  cases h4 : checkNetworkingStatusE env with
  | error e => rw [run_error_net env v1 v2 v3 e h1 h2 h3 h4] at hs; exact Except.noConfusion hs
  | ok v4 =>
  cases h5 : checkLoadBalancerStatusE env with
  | error e =>
    rw [run_error_lb env v1 v2 v3 v4 e h1 h2 h3 h4 h5] at hs
    exact Except.noConfusion hs
  | ok v5 =>
  cases h6 : checkSchedulingStatusE env with
  | error e =>
    rw [run_error_sched env v1 v2 v3 v4 v5 e h1 h2 h3 h4 h5 h6] at hs
    exact Except.noConfusion hs
  | ok v6 =>
  cases h7 : checkAuthStatusE env with
  | error e =>
    rw [run_error_auth env v1 v2 v3 v4 v5 v6 e h1 h2 h3 h4 h5 h6 h7] at hs
    exact Except.noConfusion hs
  | ok v7 =>
  cases h8 : checkNodeStatusE env with
  | error e =>
    rw [run_error_node env v1 v2 v3 v4 v5 v6 v7 e h1 h2 h3 h4 h5 h6 h7 h8] at hs
    exact Except.noConfusion hs
  | ok v8 =>
    rw [run_ok env v1 v2 v3 v4 v5 v6 v7 v8 h1 h2 h3 h4 h5 h6 h7 h8] at hs
    cases hs
    exact ⟨rfl, rfl, rfl, rfl, rfl, rfl, rfl, rfl⟩

/-- A failed run returns some sub-check's error. -/
theorem health_error_elim (env : ClusterEnv) (e : K8sError)
    (he : CheckClusterHealth env = Except.error e) :
    checkVersionMismatchE env = Except.error e
    ∨ checkDeprecatedAPIsE env = Except.error e
    ∨ checkLoggingStatusE env = Except.error e
    ∨ checkNetworkingStatusE env = Except.error e
    ∨ checkLoadBalancerStatusE env = Except.error e
    ∨ checkSchedulingStatusE env = Except.error e
    ∨ checkAuthStatusE env = Except.error e
    ∨ checkNodeStatusE env = Except.error e := by
  cases h1 : checkVersionMismatchE env with
  | error e1 =>
    rw [run_error_vm env e1 h1] at he
    injection he with hh
    subst hh
    exact Or.inl rfl
  | ok v1 =>
  cases h2 : checkDeprecatedAPIsE env with
  | error e1 =>
    rw [run_error_dep env v1 e1 h1 h2] at he
    injection he with hh
    subst hh
    exact Or.inr (Or.inl rfl)
  | ok v2 =>
  cases h3 : checkLoggingStatusE env with
  | error e1 =>
    rw [run_error_log env v1 v2 e1 h1 h2 h3] at he
    injection he with hh
    subst hh
    exact Or.inr (Or.inr (Or.inl rfl))
  | ok v3 =>
  cases h4 : checkNetworkingStatusE env with
  | error e1 =>
    rw [run_error_net env v1 v2 v3 e1 h1 h2 h3 h4] at he
    injection he with hh
    subst hh
    exact Or.inr (Or.inr (Or.inr (Or.inl rfl)))
  | ok v4 =>
  cases h5 : checkLoadBalancerStatusE env with
  | error e1 =>
    rw [run_error_lb env v1 v2 v3 v4 e1 h1 h2 h3 h4 h5] at he
    injection he with hh
    subst hh
    exact Or.inr (Or.inr (Or.inr (Or.inr (Or.inl rfl))))
  | ok v5 =>
  cases h6 : checkSchedulingStatusE env with
  | error e1 =>
    rw [run_error_sched env v1 v2 v3 v4 v5 e1 h1 h2 h3 h4 h5 h6] at he
    injection he with hh
    subst hh
    exact Or.inr (Or.inr (Or.inr (Or.inr (Or.inr (Or.inl rfl)))))
  | ok v6 =>
  cases h7 : checkAuthStatusE env with
  | error e1 =>
    rw [run_error_auth env v1 v2 v3 v4 v5 v6 e1 h1 h2 h3 h4 h5 h6 h7] at he
    injection he with hh
    subst hh
    exact Or.inr (Or.inr (Or.inr (Or.inr (Or.inr (Or.inr (Or.inl rfl))))))
  | ok v7 =>
  cases h8 : checkNodeStatusE env with
  | error e1 =>
    rw [run_error_node env v1 v2 v3 v4 v5 v6 v7 e1 h1 h2 h3 h4 h5 h6 h7 h8] at he
    injection he with hh
    subst hh
    exact Or.inr (Or.inr (Or.inr (Or.inr (Or.inr (Or.inr (Or.inr rfl))))))
  | ok v8 =>
    rw [run_ok env v1 v2 v3 v4 v5 v6 v7 v8 h1 h2 h3 h4 h5 h6 h7 h8] at he
    exact Except.noConfusion he

/-- When all eight sub-checks succeed, the run returns a snapshot. -/
theorem health_ok_intro (env : ClusterEnv)
    (h : (∃ v, checkVersionMismatchE env = Except.ok v)
      ∧ (∃ v, checkDeprecatedAPIsE env = Except.ok v)
      ∧ (∃ v, checkLoggingStatusE env = Except.ok v)
      ∧ (∃ v, checkNetworkingStatusE env = Except.ok v)
      ∧ (∃ v, checkLoadBalancerStatusE env = Except.ok v)
      ∧ (∃ v, checkSchedulingStatusE env = Except.ok v)
      ∧ (∃ v, checkAuthStatusE env = Except.ok v)
      ∧ (∃ v, checkNodeStatusE env = Except.ok v)) :
    ∃ s, CheckClusterHealth env = Except.ok s := by
  obtain ⟨⟨v1, h1⟩, ⟨v2, h2⟩, ⟨v3, h3⟩, ⟨v4, h4⟩, ⟨v5, h5⟩, ⟨v6, h6⟩, ⟨v7, h7⟩, ⟨v8, h8⟩⟩ := h
  exact ⟨_, run_ok env v1 v2 v3 v4 v5 v6 v7 v8 h1 h2 h3 h4 h5 h6 h7 h8⟩

/-! ## Claims C1 and C10 -/

/-- C1 (counterexample): when the networking check's CNI accessor is denied
while every other accessor succeeds, the run does not complete with a
snapshot: `CheckClusterHealth` returns the accessor error, so the later
categories are never populated and no report snapshot exists. -/
theorem claimC1_counterexample :
    CheckClusterHealth envNetworkingDenied = Except.error accessDeniedErr
      ∧ (CheckClusterHealth envNetworkingDenied).isOk = false := by
  exact ⟨rfl, rfl⟩

/-- C1 (amended): a category check failure is *not* isolated —
`CheckClusterHealth` aborts at the first failing sub-check, and a snapshot is
returned exactly when every one of the eight sub-checks succeeds. -/
theorem claimC1_failure_aborts_run : ∀ env : ClusterEnv,
    (∃ s, CheckClusterHealth env = Except.ok s)
      ↔ ((∃ v, checkVersionMismatchE env = Except.ok v)
        ∧ (∃ v, checkDeprecatedAPIsE env = Except.ok v)
        ∧ (∃ v, checkLoggingStatusE env = Except.ok v)
        ∧ (∃ v, checkNetworkingStatusE env = Except.ok v)
        ∧ (∃ v, checkLoadBalancerStatusE env = Except.ok v)
        ∧ (∃ v, checkSchedulingStatusE env = Except.ok v)
        ∧ (∃ v, checkAuthStatusE env = Except.ok v)
        ∧ (∃ v, checkNodeStatusE env = Except.ok v)) := by
  intro env
  constructor
  · rintro ⟨s, hs⟩
    obtain ⟨h1, h2, h3, h4, h5, h6, h7, h8⟩ := health_ok_elim env s hs
    exact ⟨⟨_, h1⟩, ⟨_, h2⟩, ⟨_, h3⟩, ⟨_, h4⟩, ⟨_, h5⟩, ⟨_, h6⟩, ⟨_, h7⟩, ⟨_, h8⟩⟩
  · exact health_ok_intro env

/-- C10: the public interface is all-or-nothing.  A successful run's snapshot
is fully determined by the eight (successful) sub-check results — the caller
never observes a partially populated `ClusterHealthStatus` — and a failed run
returns exactly one sub-check's error. -/
theorem claimC10_all_or_nothing : ∀ env : ClusterEnv,
    (∀ s, CheckClusterHealth env = Except.ok s →
      checkVersionMismatchE env = Except.ok s.nodeVersions
      ∧ checkDeprecatedAPIsE env = Except.ok s.deprecatedAPIs
      ∧ checkLoggingStatusE env = Except.ok s.loggingStatus
      ∧ checkNetworkingStatusE env = Except.ok s.networkingStatus
      ∧ checkLoadBalancerStatusE env = Except.ok s.loadBalancerStatus
      ∧ checkSchedulingStatusE env = Except.ok s.schedulingStatus
      ∧ checkAuthStatusE env = Except.ok s.authStatus
      ∧ checkNodeStatusE env = Except.ok s.nodeStatus)
    ∧ (∀ e, CheckClusterHealth env = Except.error e →
      checkVersionMismatchE env = Except.error e
      ∨ checkDeprecatedAPIsE env = Except.error e
      ∨ checkLoggingStatusE env = Except.error e
      ∨ checkNetworkingStatusE env = Except.error e
      ∨ checkLoadBalancerStatusE env = Except.error e
      ∨ checkSchedulingStatusE env = Except.error e
      ∨ checkAuthStatusE env = Except.error e
      ∨ checkNodeStatusE env = Except.error e) := by
  intro env
  exact ⟨fun s hs => health_ok_elim env s hs, fun e he => health_error_elim env e he⟩

end Ekspeek
